import Mathlib

/-!
Shallow embedding of `visitoolkit_connector/connector.py` (DMS JSON Data
Exchange client).  Python dictionaries are modelled as association lists with
unique keys, Python string truthiness as inequality with `""`, exceptions as
`Except`/explicit error values, and threading events as booleans.  Each
definition cites the source symbol it embeds.
-/

namespace VisiToolkit

/-- Python exception kinds raised by the embedded code paths. -/
inductive PyErr where
  | valueError
  | typeError
  | assertError
  | keyError
  | indexError
  | attributeError
  | timeoutError
  | dmsError
deriving DecidableEq, Repr

/-! ### Association-list model of Python dicts -/

/-- Lookup in a Python-dict model (first matching key). -/
def alookup {α : Type} : List (String × α) → String → Option α
  | [], _ => none
  | (k, v) :: rest, t => if k = t then some v else alookup rest t

/-- Membership test, Python `key in dict`. -/
def acontains {α : Type} (l : List (String × α)) (t : String) : Bool :=
  (alookup l t).isSome

/-- Assignment `dict[key] = v`: replace the value when the key is present,
append the binding otherwise. -/
def aset {α : Type} : List (String × α) → String → α → List (String × α)
  | [], t, v => [(t, v)]
  | (k, v0) :: rest, t, v =>
      if k = t then (k, v) :: rest else (k, v0) :: aset rest t v

/-- Deletion `dict.pop(key)` / `del dict[key]` (first matching key). -/
def aremove {α : Type} : List (String × α) → String → List (String × α)
  | [], _ => []
  | (k, v0) :: rest, t =>
      if k = t then rest else (k, v0) :: aremove rest t

/-! ### Wire values -/

/-- A JSON-serialisable value placed in an outgoing command dict. -/
inductive WireVal where
  | vbool (b : Bool)
  | vstr (s : String)
  | vint (n : Int)
deriving DecidableEq, Repr

/-- Python truthiness of a wire value (`if val:`). -/
def pyTruthy : WireVal → Bool
  | .vbool b => b
  | .vstr s => s ≠ ""
  | .vint n => n ≠ 0

/-- Key list of a command dict. -/
def keysOf (r : List (String × WireVal)) : List String :=
  r.map Prod.fst

/-! ### Module constants (source lines 132-151) -/

def INFO_STATE : Nat := 1
def INFO_ACCTYPE : Nat := 2
def INFO_NAME : Nat := 4
def INFO_TEMPLATE : Nat := 8
def INFO_UNIT : Nat := 16
def INFO_COMMENT : Nat := 32
def INFO_CHANGELOGGROUP : Nat := 64
def INFO_ALL : Nat := 127

def ON_CHANGE : Nat := 1
def ON_SET : Nat := 2
def ON_CREATE : Nat := 4
def ON_RENAME : Nat := 8
def ON_DELETE : Nat := 16
def ON_ALL : Nat := 31

/-- Event-code string constants of class `DMSEvent`. -/
def CODE_CHANGE : String := "onChange"
def CODE_SET : String := "onSet"
def CODE_CREATE : String := "onCreate"
def CODE_RENAME : String := "onRename"
def CODE_DELETE : String := "onDelete"

/-- Response-code string constants of class `_Response`. -/
def CODE_OK : String := "ok"
def CODE_NOPERM : String := "no perm"
def CODE_NOTFOUND : String := "not found"
def CODE_ERROR : String := "error"

/-! ### Event bitmask encoding, `_CmdSub.eventcode_as_str` (lines 605-621) -/

/-- Python `','.join(strings_list)`. -/
def joinComma : List String → String
  | [] => ""
  | [s] => s
  | s :: rest => s ++ "," ++ joinComma rest

/-- Embedding of `_CmdSub.eventcode_as_str`.  Faithful to the source,
including the pair `(ON_DELETE, DMSEvent.CODE_RENAME)` on source line 616:
the bit 16 entry emits the `onRename` token. -/
def eventcode_as_str (code_int : Nat) : String :=
  if code_int = ON_ALL then
    "*"
  else
    joinComma (([(ON_CHANGE, CODE_CHANGE),
                 (ON_SET, CODE_SET),
                 (ON_CREATE, CODE_CREATE),
                 (ON_RENAME, CODE_RENAME),
                 (ON_DELETE, CODE_RENAME)]).filterMap
      (fun p => if Nat.land code_int p.1 ≠ 0 then some p.2 else none))

/-- The event token mapping as the specification words it (section 6 of the
spec): `16` maps to the `onDelete` token.  Stated separately from the source
embedding `eventcode_as_str` so the two can be compared. -/
def eventcode_as_str_specified (code_int : Nat) : String :=
  if code_int = ON_ALL then
    "*"
  else
    joinComma (([(ON_CHANGE, CODE_CHANGE),
                 (ON_SET, CODE_SET),
                 (ON_CREATE, CODE_CREATE),
                 (ON_RENAME, CODE_RENAME),
                 (ON_DELETE, CODE_DELETE)]).filterMap
      (fun p => if Nat.land code_int p.1 ≠ 0 then some p.2 else none))

/-! ### showExtInfos encoding, `_CmdGet` (lines 402-440) -/

/-- Embedding of `_CmdGet.showExtInfos_as_strlist`. -/
def showExtInfos_as_strlist (n : Nat) : List String :=
  ([(INFO_STATE, "state"),
    (INFO_ACCTYPE, "accType"),
    (INFO_NAME, "name"),
    (INFO_TEMPLATE, "template"),
    (INFO_UNIT, "unit"),
    (INFO_COMMENT, "comment"),
    (INFO_CHANGELOGGROUP, "changelogGroup")]).filterMap
    (fun p => if n = INFO_ALL ∨ Nat.land n p.1 ≠ 0 then some p.2 else none)

/-- The three runtime shapes a caller can pass for `showExtInfos`. -/
inductive ShowExtInfosArg where
  | int (n : Int)
  | str (s : String)
  | strlist (l : List String)
deriving DecidableEq, Repr

/-- Python `int(x)` on the shapes above: identity on ints, digit parsing on
strings (`ValueError` when unparseable), `TypeError` on lists. -/
def py_int : ShowExtInfosArg → Except PyErr Int
  | .int n => .ok n
  | .str s =>
      match s.toInt? with
      | some n => .ok n
      | none => .error .valueError
  | .strlist _ => .error .typeError

/-- Embedding of the `showExtInfos` branch of `_CmdGet.__init__`
(lines 402-411).  The `try` block calls `int(showExtInfos)`, asserts the
range, and stores the token list; only `ValueError` is caught, and the
handler stores `[].extend(showExtInfos)`, which in Python is `None`.
A `TypeError` from `int()` on a list propagates to the caller, as does an
`AssertionError` from the range check.  Result: the value stored in
`self.showExtInfos` (`none` models Python `None`). -/
def cmdGet_parse_showExtInfos (arg : ShowExtInfosArg) :
    Except PyErr (Option (List String)) :=
  match py_int arg with
  | .ok n =>
      if 0 < n ∧ n ≤ (INFO_ALL : Nat) then
        .ok (some (showExtInfos_as_strlist n.toNat))
      else
        .error .assertError
  | .error .valueError => .ok none
  | .error e => .error e

/-- Embedding of the `showExtInfos` part of `_CmdGet.as_dict` (line 447):
the field is emitted only when the stored value is truthy
(`None` and the empty list are falsy). -/
def cmdGet_showExtInfos_field (stored : Option (List String)) :
    Option (List String) :=
  match stored with
  | none => none
  | some l => if l = [] then none else some l

/-! ### Timestamp-like inputs -/

/-- A timestamp argument: either a datetime-like object (modelled by the
string its `isoformat()` call produces) or an already-formatted string. -/
inductive TimeArg where
  | dt (iso : String)
  | str (s : String)
deriving DecidableEq, Repr

/-- The `try: val = x.isoformat() except AttributeError: val = '' + x`
pattern used throughout the encoders. -/
def timearg_convert : TimeArg → String
  | .dt iso => iso
  | .str s => s

/-! ### The set encoder, `_CmdSet.__init__` (lines 467-495) -/

/-- Caller-supplied optional fields of a `set` command.  The source walks
`kwargs` and accepts exactly the keys `create`, `type` and `stamp`; any
other key raises `ValueError`.  Key order in a dict only affects the order
of entries in the built request dict, so the embedding processes the three
keys in a fixed order. -/
structure SetKwargs where
  create : Option Bool
  type : Option String
  stamp : Option TimeArg
deriving DecidableEq, Repr

/-- The `if val: self.request[key] = val` step of `_CmdSet.__init__`
(line 494): a falsy converted value is dropped. -/
def addIfTruthy (r : List (String × WireVal)) (k : String) (v : WireVal) :
    List (String × WireVal) :=
  if pyTruthy v then r ++ [(k, v)] else r

/-- Embedding of the option loop of `_CmdSet.__init__`: builds
`self.request` from the validated optional fields.  `type` must be one of
the four type tokens (`AssertionError` otherwise); `create` is converted by
`bool()`, `stamp` by the isoformat-or-string pattern. -/
def cmdSet_request (kw : SetKwargs) : Except PyErr (List (String × WireVal)) :=
  let r1 :=
    match kw.create with
    | none => []
    | some b => addIfTruthy [] "create" (.vbool b)
  match kw.type with
  | none =>
      .ok (match kw.stamp with
           | none => r1
           | some t => addIfTruthy r1 "stamp" (.vstr (timearg_convert t)))
  | some s =>
      if s = "int" ∨ s = "double" ∨ s = "string" ∨ s = "bool" then
        let r2 := addIfTruthy r1 "type" (.vstr s)
        .ok (match kw.stamp with
             | none => r2
             | some t => addIfTruthy r2 "stamp" (.vstr (timearg_convert t)))
      else
        .error .assertError

/-! ### The delete encoder, `_CmdDel` (lines 536-563) -/

/-- The fields of a constructed `_CmdDel` object. -/
structure CmdDel where
  path : String
  recursive : Option Bool
  tag : String
deriving DecidableEq, Repr

/-- Embedding of `_CmdDel.as_dict` (lines 554-560): `recursive` is emitted
whenever it is not `None`, so an explicit `recursive: false` is sent. -/
def cmdDel_as_dict (c : CmdDel) : List (String × WireVal) :=
  [("path", .vstr c.path)] ++
  (match c.recursive with
   | none => []
   | some b => [("recursive", .vbool b)]) ++
  [("tag", .vstr c.tag)]

/-! ### Response code handling, `_Response.__init__` (lines 964-983) -/

/-- Observable outcome of `_Response.__init__` on the common fields: the
final value of `_values_dict['code']` and whether an error-level log record
was emitted (`logger.exception` in the missing-field branch and
`logger.error` in the unknown-code branch are both at error level). -/
structure RespCommon where
  code : String
  loggedErrorLevel : Bool
deriving DecidableEq, Repr

/-- Embedding of `_Response.__init__`: pop the mandatory `code` field
(missing field: log and substitute `CODE_ERROR`), then the sanity check
logs an error for a code outside the four known constants but leaves the
stored value untouched. -/
def response_init (kwargs_code : Option String) : RespCommon :=
  match kwargs_code with
  | none => { code := CODE_ERROR, loggedErrorLevel := true }
  | some c =>
      if c = CODE_OK ∨ c = CODE_NOPERM ∨ c = CODE_NOTFOUND ∨ c = CODE_ERROR then
        { code := c, loggedErrorLevel := false }
      else
        { code := c, loggedErrorLevel := true }

/-! ### Pending-response table, `_MessageHandler` (lines 1381-1698) -/

/-- A raw inbound reply record: its optional `tag` field plus an opaque
payload distinguishing records.  The typed hydration `resp_cls(**response)`
preserves the fields, so the reply-grouping logic of `handle` is modelled
directly on these records. -/
structure RawResp where
  tag : Option String
  body : Nat
deriving DecidableEq, Repr

/-- Embedding of `_MessageHandler._Response_container`: a readiness flag
(`threading.Event`, modelled as a `Bool`) plus the response list. -/
structure ResponseContainer where
  isAvailable : Bool
  response_list : List RawResp
deriving DecidableEq, Repr

/-- A freshly constructed `_Response_container()`. -/
def emptyContainer : ResponseContainer := ⟨false, []⟩

/-- The pending-response dict, keyed by command tag. -/
abbrev PendingTable := List (String × ResponseContainer)

/-- Embedding of the per-verb accumulator `Current_response`
(lines 1411-1417). -/
structure CurrResponse where
  msg_tag : String
  resp_list : List RawResp
deriving DecidableEq, Repr

/-- State threaded through the reply loop of `_MessageHandler.handle`:
the pending table, the accumulator, and the Python local variable
`curr_tag` (`none` while it is still unbound). -/
structure HandleState where
  pending : PendingTable
  curr : CurrResponse
  last_tag : Option String
deriving DecidableEq, Repr

/-- Embedding of one iteration of the reply loop of
`_MessageHandler.handle` (source lines 1588-1612).  Untagged replies are
logged and skipped.  On a tag change, the previously accumulated list is
stored - as the source does on lines 1599-1604 - under `curr_tag`, the
NEWLY seen tag (both the membership test and the assignment use
`curr_tag`), provided that tag has a pending slot; completing a slot sets
its list and its readiness flag. -/
def handleReplyStep (st : HandleState) (response : RawResp) : HandleState :=
  match response.tag with
  | none => st
  | some curr_tag =>
      if curr_tag = st.curr.msg_tag then
        { st with
            curr := ⟨st.curr.msg_tag, st.curr.resp_list ++ [response]⟩,
            last_tag := some curr_tag }
      else
        let pending1 :=
          if st.curr.msg_tag ≠ "" ∧ st.curr.resp_list ≠ [] then
            if acontains st.pending curr_tag then
              aset st.pending curr_tag ⟨true, st.curr.resp_list⟩
            else
              st.pending
          else
            st.pending
        { pending := pending1,
          curr := ⟨curr_tag, [response]⟩,
          last_tag := some curr_tag }

/-- Embedding of the reply handling of one verb block in
`_MessageHandler.handle`: the loop over the replies followed by the final
store (lines 1615-1620), which writes the collected list into the slot of
the last seen tag.  The returned flag records whether the surrounding
`try`/`except` caught an exception there: a `NameError` when no tagged
reply bound `curr_tag`, or a `KeyError` when the final tag has no pending
slot; in both cases the table keeps the modifications already made. -/
def handleVerb (pending : PendingTable) (replies : List RawResp) :
    PendingTable × Bool :=
  let st := replies.foldl handleReplyStep ⟨pending, ⟨"", []⟩, none⟩
  match st.last_tag with
  | none => (st.pending, true)
  | some t =>
      if acontains st.pending t then
        (aset st.pending t ⟨true, st.curr.resp_list⟩, false)
      else
        (st.pending, true)

/-! ### Tag-less verb correlation, `changelogGetGroups` -/

/-- The fields of a constructed `_CmdChangelogGetGroups` object: only the
reserved tag (the wire command itself is tagless, line 678-681). -/
structure CmdChangelogGetGroups where
  tag : String
deriving DecidableEq, Repr

/-- Embedding of the helper-map construction of `_Request.as_dict`
(lines 264-276) for an untagged request: the tags of the
`changelogGetGroups` commands, in command order, become the value stored
under the key `changelogGetGroups` of the envelope-level `tag` dict; no
`tag` field is emitted when there are no such commands. -/
def request_helper_tag_map (cmds : List CmdChangelogGetGroups) :
    Option (List String) :=
  let groups_tag_list := cmds.map CmdChangelogGetGroups.tag
  if groups_tag_list = [] then none else some groups_tag_list

/-- Positional copy loop of the decoder back-fill (source lines 1585-1586):
`resp_obj['tag'] = helper[idx]` for each reply index. -/
def backfillGo : List String → List RawResp → List RawResp
  | _, [] => []
  | [], r :: rest => r :: rest
  | t :: ts, r :: rest => { r with tag := some t } :: backfillGo ts rest

/-- Embedding of the `changelogGetGroups` back-fill in
`_MessageHandler.handle` (lines 1584-1586): each reply's `tag` is set from
the helper list by positional index; a helper list shorter than the reply
list raises `IndexError` (caught by the surrounding handler). -/
def backfill_tags (helper : List String) (replies : List RawResp) :
    Except PyErr (List RawResp) :=
  if replies.length ≤ helper.length then
    .ok (backfillGo helper replies)
  else
    .error .indexError

/-! ### take, `_MessageHandler._busy_wait_for_response` (lines 1663-1676) -/

/-- Embedding of `_busy_wait_for_response`.  The source first spins until
`tag` is a key of the pending dict (the theorems below therefore assume the
slot is present; with the slot absent the source loops forever and the
embedding returns a failure).  `signalled` models the outcome of
`isAvailable.wait(timeout)`: `true` when the readiness flag was set within
the timeout.  On success the slot is popped and its list returned; on
timeout an exception is raised and the table is left untouched. -/
def busy_wait_for_response (pending : PendingTable) (tag : String)
    (signalled : Bool) : Except PyErr (List RawResp) × PendingTable :=
  match alookup pending tag with
  | some c =>
      if signalled then
        (.ok c.response_list, aremove pending tag)
      else
        (.error .timeoutError, pending)
  | none => (.error .timeoutError, pending)

/-! ### Tag allocation and the subscription registry -/

/-- The shared state of `_MessageHandler` touched by tag reservation:
the pending-response dict and the set of registered subscription tags
(the keys of `_subscriptionES_objs_dict`). -/
structure MsgHandlerState where
  pending : PendingTable
  subscriptions : List String
deriving DecidableEq, Repr

/-- Embedding of `_MessageHandler.prepare_tag` (lines 1687-1698): when the
caller-supplied tag is falsy (`None` or the empty string) a fresh uuid
string (`fresh`) is minted; in every case an empty response container is
inserted into the pending dict under the resulting tag.  No check against
the subscription registry is made. -/
def prepare_tag (st : MsgHandlerState) (curr_tag : Option String)
    (fresh : String) : String × MsgHandlerState :=
  let t :=
    match curr_tag with
    | none => fresh
    | some s => if s = "" then fresh else s
  (t, { st with pending := aset st.pending t emptyContainer })

/-! ### The subscribe encoder, `_CmdSub.__init__` (lines 572-602) -/

/-- Caller value for the `event` option: an integer bitmask, or a string
(for which `eventcode_as_str` raises `TypeError` at the `&` operation,
caught by the constructor, which then stores the string itself). -/
inductive EventArg where
  | int (n : Nat)
  | str (s : String)
deriving DecidableEq, Repr

/-- The `try: self.event = self.eventcode_as_str(val) except TypeError:`
pattern of `_CmdSub.__init__` (lines 594-599). -/
def cmdSub_event_convert : EventArg → String
  | .int n => eventcode_as_str n
  | .str s => s

/-- The fields of a constructed `_CmdSub` object relevant to correlation
(the optional `query` object is carried opaquely by the source and is not
needed by any claim). -/
structure CmdSub where
  path : String
  tag : String
  event : Option String
deriving DecidableEq, Repr

/-- Caller-supplied options of a subscribe/update call.  `hasPath` and
`hasTag` record whether the caller attempted to pass the keys `path` or
`tag` to `SubscriptionES.update`; `hasIllegal` records a leftover key that
`_CmdSub.__init__` rejects with `ValueError`. -/
structure SubOptions where
  hasPath : Bool
  hasTag : Bool
  event : Option EventArg
  hasIllegal : Bool
deriving DecidableEq, Repr

/-- Embedding of `_CmdSub.__init__`: pop a caller-supplied `tag` (if any)
and reserve it through `prepare_tag`, convert the `event` option, then
raise `ValueError` on leftover kwargs.  The tag reservation happens before
the leftover check, so the pending-table insertion persists even on the
error. -/
def cmdSub_init (st : MsgHandlerState) (path : String)
    (tagOpt : Option String) (event : Option EventArg) (hasIllegal : Bool)
    (fresh : String) : Except PyErr CmdSub × MsgHandlerState :=
  let (t, st1) := prepare_tag st tagOpt fresh
  let ev := event.map cmdSub_event_convert
  if hasIllegal then
    (.error .valueError, st1)
  else
    (.ok { path := path, tag := t, event := ev }, st1)

/-- Embedding of `_CmdUnsub.__init__` (lines 645-649): the mandatory tag is
reserved through `prepare_tag`, inserting a pending slot under it. -/
def cmdUnsub_init (st : MsgHandlerState) (path tag : String)
    (fresh : String) : (String × String) × MsgHandlerState :=
  let (t, st1) := prepare_tag st (some tag) fresh
  ((path, t), st1)

/-! ### Subscription objects and lifecycle -/

/-- The subscribe reply a `SubscriptionES` object wraps
(`self.sub_response`); `get_tag` reads its `tag` field, `update` and
`unsubscribe` also read its `path` field. -/
structure RespSub where
  code : String
  path : String
  tag : String
deriving DecidableEq, Repr

/-- Embedding of `SubscriptionES.update` (lines 1292-1304): assert that the
caller passed neither `path` nor `tag` (an `AssertionError` is raised
before any command is built or sent), force `kwargs['tag']` to the
subscription's own tag, and issue a subscribe command for the
subscription's own path.  `sub_response` is never written, so the
subscription's tag and path are unchanged by the call. -/
def subscriptionES_update (st : MsgHandlerState) (sub : RespSub)
    (opts : SubOptions) (fresh : String) :
    Except PyErr CmdSub × MsgHandlerState :=
  if opts.hasPath then
    (.error .assertError, st)
  else if opts.hasTag then
    (.error .assertError, st)
  else
    cmdSub_init st sub.path (some sub.tag) opts.event opts.hasIllegal fresh

/-- The subscription registry `_subscriptionES_objs_dict`: tag to
subscription object, the latter modelled by its wrapped subscribe reply. -/
abbrev SubRegistry := List (String × RespSub)

/-- Embedding of `DMSClient.get_dp_subscription` (lines 1822-1834): take
the first reply of the subscribe exchange; on `code = ok` build a
`SubscriptionES` around it, register it in the registry under the reply's
tag (`add_subscription` keys by `get_tag()`), and return it; otherwise
raise, leaving the registry untouched.  An empty reply list raises
`IndexError` from the `[0]` access. -/
def get_dp_subscription (registry : SubRegistry)
    (responses : List RespSub) : Except PyErr RespSub × SubRegistry :=
  match responses with
  | [] => (.error .indexError, registry)
  | response :: _ =>
      if response.code = CODE_OK then
        (.ok response, aset registry response.tag response)
      else
        (.error .dmsError, registry)

/-! ### Association-list lemmas -/

theorem alookup_aset_self {α : Type} (l : List (String × α)) (t : String)
    (v : α) : alookup (aset l t v) t = some v := by
  induction l with
  | nil => simp [aset, alookup]
  | cons p rest ih =>
      obtain ⟨k, v0⟩ := p
      by_cases h : k = t
      · simp [aset, alookup, h]
      · simp [aset, alookup, h, ih]

theorem alookup_eq_none_of_not_mem {α : Type} (l : List (String × α))
    (t : String) (h : t ∉ l.map Prod.fst) : alookup l t = none := by
  induction l with
  | nil => rfl
  | cons p rest ih =>
      obtain ⟨k, v0⟩ := p
      simp only [List.map_cons, List.mem_cons, not_or] at h
      have hk : k ≠ t := fun hkt => h.1 hkt.symm
      simp [alookup, hk, ih h.2]

theorem alookup_aremove_self {α : Type} (l : List (String × α)) (t : String)
    (hnd : (l.map Prod.fst).Nodup) : alookup (aremove l t) t = none := by
  induction l with
  | nil => rfl
  | cons p rest ih =>
      obtain ⟨k, v0⟩ := p
      simp only [List.map_cons, List.nodup_cons] at hnd
      by_cases h : k = t
      · subst h
        simpa [aremove] using alookup_eq_none_of_not_mem rest k hnd.1
      · simp [aremove, alookup, h, ih hnd.2]

/-! ### C1 -/

/-- C1: the claim states that on a tag change inside one verb's reply list
the previously accumulated list is completed under the PREVIOUS list's own
tag.  The source instead stores it under the newly seen tag.  Concrete
run: pending slots for tags `A` and `B`, inbound frame with two `get`
replies tagged `A` then `B`.  After the frame, slot `A` is still empty and
unsignalled (the `A`-reply was never delivered under `A`), and the
intermediate state after the second loop iteration shows the `A`-list
stored in slot `B`.  The final store then overwrites slot `B` with the
`B`-list. -/
theorem c1_two_tag_frame_eval :
    handleVerb [("A", emptyContainer), ("B", emptyContainer)]
        [⟨some "A", 0⟩, ⟨some "B", 1⟩]
      = ([("A", ⟨false, []⟩), ("B", ⟨true, [⟨some "B", 1⟩]⟩)], false) ∧
    (handleReplyStep
        (handleReplyStep
          ⟨[("A", emptyContainer), ("B", emptyContainer)], ⟨"", []⟩, none⟩
          ⟨some "A", 0⟩)
        ⟨some "B", 1⟩).pending
      = [("A", ⟨false, []⟩), ("B", ⟨true, [⟨some "A", 0⟩]⟩)] := by
  constructor <;> rfl

/-! ### C2 -/

/-- C2: the claim maps bit 16 to the wire token `onDelete`.  The source's
pair list maps `ON_DELETE` to `DMSEvent.CODE_RENAME` (line 616), so the
encoder emits `onRename` for bit 16 (and twice for a mask containing both
bit 8 and bit 16), diverging from the specified mapping; the `31`-to-`*`
case does hold. -/
theorem c2_on_delete_bit_eval :
    eventcode_as_str ON_DELETE = "onRename" ∧
    eventcode_as_str_specified ON_DELETE = "onDelete" ∧
    eventcode_as_str 24 = "onRename,onRename" ∧
    eventcode_as_str_specified 24 = "onRename,onDelete" ∧
    eventcode_as_str ON_ALL = "*" := by
  refine ⟨rfl, rfl, rfl, rfl, rfl⟩

/-! ### C3 -/

/-- C3 counterexample: with tag `T` registered in the subscription registry
and absent from the pending table, calling `update` on that subscription
(no caller-supplied `path`/`tag`, no options) inserts a pending-response
slot under `T` while `T` is still registered - refuting the claim that no
operation recycles a registered tag in the pending table. -/
theorem c3_counterexample_update_recycles_registered_tag :
    acontains (subscriptionES_update ⟨[], ["T"]⟩ ⟨"ok", "P", "T"⟩
        ⟨false, false, none, false⟩ "F").2.pending "T" = true ∧
    "T" ∈ (subscriptionES_update ⟨[], ["T"]⟩ ⟨"ok", "P", "T"⟩
        ⟨false, false, none, false⟩ "F").2.subscriptions := by
  exact ⟨rfl, by decide⟩

/-- C3 (amended): subscription update and unsubscribe deliberately reuse
the subscription's registered tag - each inserts a pending-response slot
under the still-registered tag through `prepare_tag`, which reserves a
slot for any tag it is handed without consulting the subscription
registry; the registry itself is unchanged by the reservation. -/
theorem c3_update_and_unsubscribe_insert_pending_slot
    (st : MsgHandlerState) (sub : RespSub) (opts : SubOptions)
    (fresh p t : String) (htag : sub.tag ≠ "")
    (hp : opts.hasPath = false) (hq : opts.hasTag = false) (ht : t ≠ "") :
    acontains (subscriptionES_update st sub opts fresh).2.pending sub.tag
      = true ∧
    (subscriptionES_update st sub opts fresh).2.subscriptions
      = st.subscriptions ∧
    acontains (cmdUnsub_init st p t fresh).2.pending t = true ∧
    (cmdUnsub_init st p t fresh).2.subscriptions = st.subscriptions := by
  cases hIll : opts.hasIllegal <;>
    simp [subscriptionES_update, cmdSub_init, cmdUnsub_init, prepare_tag,
      hp, hq, hIll, htag, ht, acontains, alookup_aset_self]

/-- C3 witness at a concrete state. -/
theorem c3_witness :
    acontains (subscriptionES_update ⟨[], ["U"]⟩ ⟨"ok", "Q", "U"⟩
        ⟨false, false, none, false⟩ "G").2.pending "U" = true ∧
    (subscriptionES_update ⟨[], ["U"]⟩ ⟨"ok", "Q", "U"⟩
        ⟨false, false, none, false⟩ "G").2.subscriptions = ["U"] ∧
    acontains (cmdUnsub_init ⟨[], ["U"]⟩ "Q" "U" "G").2.pending "U" = true ∧
    (cmdUnsub_init ⟨[], ["U"]⟩ "Q" "U" "G").2.subscriptions = ["U"] := by
  exact c3_update_and_unsubscribe_insert_pending_slot ⟨[], ["U"]⟩
    ⟨"ok", "Q", "U"⟩ ⟨false, false, none, false⟩ "G" "Q" "U"
    (by decide) rfl rfl (by decide)

/-! ### C4 -/

/-- C4 counterexample: a reply whose `code` field is `weird` is logged at
error level, but the constructed response keeps `weird` as its code - it is
not treated as if its code were `error`. -/
theorem c4_counterexample_unknown_code_not_coerced :
    response_init (some "weird") = ⟨"weird", true⟩ ∧
    ("weird" : String) ≠ CODE_ERROR := by
  exact ⟨rfl, by decide⟩

/-- C4 (amended): for every reply code outside the four known constants,
`_Response.__init__` logs at error level and stores the unknown value
unchanged in the response's `code` field (no coercion to `error`). -/
theorem c4_unknown_code_logged_and_kept (c : String)
    (h1 : c ≠ CODE_OK) (h2 : c ≠ CODE_NOPERM) (h3 : c ≠ CODE_NOTFOUND)
    (h4 : c ≠ CODE_ERROR) :
    response_init (some c) = ⟨c, true⟩ := by
  simp [response_init, h1, h2, h3, h4]

/-- C4 witness at a concrete unknown code. -/
theorem c4_witness : response_init (some "bogus") = ⟨"bogus", true⟩ :=
  c4_unknown_code_logged_and_kept "bogus" (by decide) (by decide)
    (by decide) (by decide)

/-! ### C5 -/

/-- C5: a pre-built string list passed as `showExtInfos` is not carried
into the command: `int()` on a list raises `TypeError`, which the
`except ValueError` handler does not catch, so the constructor fails.
(Had it been caught, the handler's `[].extend(...)` evaluates to `None`
and the field would be omitted, per the last conjunct.)  The integer
bitmask path does work, e.g. `3` yields `state` and `accType`. -/
theorem c5_prebuilt_list_eval :
    cmdGet_parse_showExtInfos (.strlist ["state"]) = .error .typeError ∧
    cmdGet_parse_showExtInfos (.int 3) = .ok (some ["state", "accType"]) ∧
    cmdGet_showExtInfos_field none = none := by
  refine ⟨rfl, rfl, rfl⟩

/-! ### C6 -/

/-- C6: `update` on a subscription rejects caller-supplied `path` or `tag`
with an `AssertionError` before any command is built or sent (the state is
untouched), and otherwise the issued subscribe command carries exactly the
subscription's existing path and existing tag; `sub_response` is never
written, so the subscription's tag and path are unchanged by the call. -/
theorem c6_update_preserves_path_and_tag (st : MsgHandlerState)
    (sub : RespSub) (opts : SubOptions) (fresh : String)
    (htag : sub.tag ≠ "") :
    (opts.hasPath = true ∨ opts.hasTag = true →
      subscriptionES_update st sub opts fresh = (.error .assertError, st)) ∧
    (opts.hasPath = false → opts.hasTag = false → opts.hasIllegal = false →
      (subscriptionES_update st sub opts fresh).1 =
        .ok { path := sub.path, tag := sub.tag,
              event := opts.event.map cmdSub_event_convert }) := by
  constructor
  · rintro (h | h) <;>
      by_cases hP : opts.hasPath <;>
      simp_all [subscriptionES_update]
  · intro hp hq hi
    simp [subscriptionES_update, cmdSub_init, prepare_tag, hp, hq, hi, htag]

/-- C6 witness: one rejected call and one accepted call at concrete
inputs. -/
theorem c6_witness :
    subscriptionES_update ⟨[], []⟩ ⟨"ok", "P", "T"⟩
        ⟨true, false, none, false⟩ "F" = (.error .assertError, ⟨[], []⟩) ∧
    (subscriptionES_update ⟨[], []⟩ ⟨"ok", "P", "T"⟩
        ⟨false, false, none, false⟩ "F").1 = .ok ⟨"P", "T", none⟩ := by
  have h1 := c6_update_preserves_path_and_tag ⟨[], []⟩ ⟨"ok", "P", "T"⟩
    ⟨true, false, none, false⟩ "F" (by decide)
  have h2 := c6_update_preserves_path_and_tag ⟨[], []⟩ ⟨"ok", "P", "T"⟩
    ⟨false, false, none, false⟩ "F" (by decide)
  exact ⟨h1.1 (Or.inl rfl), h2.2 rfl rfl rfl⟩

/-! ### C7 -/

/-- C7: when the first reply to the subscribe command has code `ok`, a
subscription object wrapping that reply is registered in the registry
under the reply's tag and returned; on any other code the call raises and
the registry is unchanged. -/
theorem c7_get_dp_subscription_registration (registry : SubRegistry)
    (r : RespSub) (rest : List RespSub) :
    (r.code = CODE_OK →
      get_dp_subscription registry (r :: rest)
        = (.ok r, aset registry r.tag r) ∧
      alookup (aset registry r.tag r) r.tag = some r) ∧
    (r.code ≠ CODE_OK →
      get_dp_subscription registry (r :: rest)
        = (.error .dmsError, registry)) := by
  constructor
  · intro h
    exact ⟨by simp [get_dp_subscription, h],
           alookup_aset_self registry r.tag r⟩
  · intro h
    simp [get_dp_subscription, h]

/-- C7 witness: one `ok` reply and one `error` reply at concrete inputs. -/
theorem c7_witness :
    get_dp_subscription [] [⟨"ok", "P", "T"⟩]
      = (.ok ⟨"ok", "P", "T"⟩, [("T", ⟨"ok", "P", "T"⟩)]) ∧
    get_dp_subscription [] [⟨"error", "P", "T"⟩]
      = (.error .dmsError, []) := by
  have h1 := (c7_get_dp_subscription_registration [] ⟨"ok", "P", "T"⟩ []).1 rfl
  have h2 := (c7_get_dp_subscription_registration [] ⟨"error", "P", "T"⟩ []).2
    (by decide)
  exact ⟨h1.1, h2⟩

/-! ### C8 -/

theorem backfillGo_map_tag (ts : List String) (rs : List RawResp)
    (h : rs.length = ts.length) :
    (backfillGo ts rs).map RawResp.tag = ts.map some := by
  induction rs generalizing ts with
  | nil =>
      cases ts with
      | nil => rfl
      | cons t ts' => simp at h
  | cons r rs' ih =>
      cases ts with
      | nil => simp at h
      | cons t ts' =>
          simp only [backfillGo, List.map_cons]
          exact congrArg (some t :: ·) (ih ts' (by simpa using h))

/-- C8: the encoder stores the reserved tags of the `changelogGetGroups`
commands, in command order, as the envelope-level helper map; the decoder
back-fill writes the helper tag at position `i` into the `i`-th reply, so
each reply's tag equals the tag the encoder stored; and for the (degenerate
single-command) envelope the frame handler then completes the pending slot
reserved under that tag with the back-filled reply. -/
theorem c8_changelogGetGroups_tag_roundtrip
    (cmds : List CmdChangelogGetGroups) (rs : List RawResp)
    (hne : cmds ≠ []) (hlen : rs.length = cmds.length)
    (pending : PendingTable) (t : String) (r : RawResp)
    (hc : acontains pending t = true) (ht : t ≠ "") :
    request_helper_tag_map cmds
      = some (cmds.map CmdChangelogGetGroups.tag) ∧
    (∃ rs', backfill_tags (cmds.map CmdChangelogGetGroups.tag) rs = .ok rs' ∧
      rs'.map RawResp.tag = (cmds.map CmdChangelogGetGroups.tag).map some) ∧
    backfill_tags [t] [r] = .ok [{ r with tag := some t }] ∧
    alookup (handleVerb pending [{ r with tag := some t }]).1 t
      = some ⟨true, [{ r with tag := some t }]⟩ ∧
    (handleVerb pending [{ r with tag := some t }]).2 = false := by
  have hlen' : rs.length = (cmds.map CmdChangelogGetGroups.tag).length := by
    simpa using hlen
  refine ⟨?_, ⟨backfillGo (cmds.map CmdChangelogGetGroups.tag) rs, ?_, ?_⟩,
    ?_, ?_, ?_⟩
  · simp [request_helper_tag_map, hne]
  · unfold backfill_tags
    rw [if_pos hlen'.le]
  · exact backfillGo_map_tag _ rs hlen'
  · simp [backfill_tags, backfillGo]
  · simp [handleVerb, handleReplyStep, ht, hc, alookup_aset_self]
  · simp [handleVerb, handleReplyStep, ht, hc]

/-- C8 witness at a concrete single-command envelope. -/
theorem c8_witness :
    request_helper_tag_map [⟨"T1"⟩] = some ["T1"] ∧
    (∃ rs', backfill_tags ["T1"] [⟨none, 5⟩] = .ok rs' ∧
      rs'.map RawResp.tag = ["T1"].map some) ∧
    backfill_tags ["T1"] [⟨none, 5⟩] = .ok [⟨some "T1", 5⟩] ∧
    alookup (handleVerb [("T1", emptyContainer)] [⟨some "T1", 5⟩]).1 "T1"
      = some ⟨true, [⟨some "T1", 5⟩]⟩ ∧
    (handleVerb [("T1", emptyContainer)] [⟨some "T1", 5⟩]).2 = false := by
  exact c8_changelogGetGroups_tag_roundtrip [⟨"T1"⟩] [⟨none, 5⟩]
    (by decide) rfl [("T1", emptyContainer)] "T1" ⟨none, 5⟩ rfl (by decide)

/-! ### C9 -/

/-- C9: with the slot for `tag` present, a `take` whose ready signal is set
within the timeout removes the slot from the pending table and returns its
accumulated list (the removed key no longer resolves); a timed-out `take`
raises a failure and returns with the pending table unchanged, the slot
still present. -/
theorem c9_take_semantics (pending : PendingTable) (tag : String)
    (c : ResponseContainer) (h : alookup pending tag = some c)
    (hnd : (pending.map Prod.fst).Nodup) :
    busy_wait_for_response pending tag true
      = (.ok c.response_list, aremove pending tag) ∧
    alookup (aremove pending tag) tag = none ∧
    busy_wait_for_response pending tag false
      = (.error .timeoutError, pending) ∧
    acontains pending tag = true := by
  refine ⟨?_, alookup_aremove_self pending tag hnd, ?_, ?_⟩
  · simp [busy_wait_for_response, h]
  · simp [busy_wait_for_response, h]
  · simp [acontains, h]

/-- C9 witness at a concrete one-slot table. -/
theorem c9_witness :
    busy_wait_for_response [("T", ⟨true, [⟨some "T", 0⟩]⟩)] "T" true
      = (.ok [⟨some "T", 0⟩], []) ∧
    busy_wait_for_response [("T", ⟨true, [⟨some "T", 0⟩]⟩)] "T" false
      = (.error .timeoutError, [("T", ⟨true, [⟨some "T", 0⟩]⟩)]) := by
  have h := c9_take_semantics [("T", ⟨true, [⟨some "T", 0⟩]⟩)] "T"
    ⟨true, [⟨some "T", 0⟩]⟩ rfl (by decide)
  exact ⟨h.1, h.2.2.1⟩

/-! ### C10 -/

theorem keysOf_addIfTruthy (r : List (String × WireVal)) (k : String)
    (v : WireVal) :
    keysOf (addIfTruthy r k v)
      = if pyTruthy v then keysOf r ++ [k] else keysOf r := by
  unfold addIfTruthy keysOf
  split <;> simp

theorem cmdSet_request_keys (cr : Option Bool) (ty : Option String)
    (stp : Option TimeArg) (r : List (String × WireVal))
    (h : cmdSet_request ⟨cr, ty, stp⟩ = .ok r) :
    keysOf r =
      (match cr with
       | some true => ["create"]
       | _ => []) ++
      (match ty with
       | some _ => ["type"]
       | none => []) ++
      (match stp with
       | none => []
       | some t => if timearg_convert t = "" then [] else ["stamp"]) := by
  rcases ty with _ | s
  · rcases cr with _ | b
    all_goals rcases stp with _ | t
    all_goals try rcases b with _ | _
    all_goals simp only [cmdSet_request] at h
    all_goals cases h
    all_goals try by_cases hts : timearg_convert t = ""
    all_goals first
    | simp [keysOf, addIfTruthy, pyTruthy, hts]
    | simp [keysOf, addIfTruthy, pyTruthy]
  · by_cases hs : s = "int" ∨ s = "double" ∨ s = "string" ∨ s = "bool"
    · have hsne : s ≠ "" := by
        rcases hs with rfl | rfl | rfl | rfl <;> decide
      rcases cr with _ | b
      all_goals rcases stp with _ | t
      all_goals try rcases b with _ | _
      all_goals simp only [cmdSet_request, if_pos hs] at h
      all_goals cases h
      all_goals try by_cases hts : timearg_convert t = ""
      all_goals first
      | simp [keysOf, addIfTruthy, pyTruthy, hsne, hts]
      | simp [keysOf, addIfTruthy, pyTruthy, hsne]
    · simp only [cmdSet_request, if_neg hs] at h
      exact absurd h (by simp)

/-- C10: in the set encoder every validated optional field whose converted
value is falsy is silently dropped from the request dict - `create` appears
iff the caller passed `create = true`, `stamp` appears iff its converted
string is nonempty, and `create = false` in particular is accepted without
error while emitting no field at all; the delete encoder by contrast does
transmit an explicit `recursive: false` when the caller supplies it. -/
theorem c10_set_falsy_options_omitted :
    (∀ kw r, cmdSet_request kw = .ok r →
      (("create" ∈ keysOf r) ↔ kw.create = some true)) ∧
    (∀ kw r, cmdSet_request kw = .ok r →
      (("stamp" ∈ keysOf r) ↔
        ∃ t, kw.stamp = some t ∧ timearg_convert t ≠ "")) ∧
    cmdSet_request ⟨some false, none, none⟩ = .ok [] ∧
    (∀ p t, ("recursive", WireVal.vbool false)
      ∈ cmdDel_as_dict ⟨p, some false, t⟩) := by
  refine ⟨?_, ?_, rfl, ?_⟩
  · rintro ⟨cr, ty, stp⟩ r h
    rw [cmdSet_request_keys cr ty stp r h]
    rcases cr with _ | b
    all_goals rcases ty with _ | s
    all_goals rcases stp with _ | t
    all_goals try rcases b with _ | _
    all_goals try by_cases hts : timearg_convert t = ""
    all_goals first
    | simp [hts]
    | simp
  · rintro ⟨cr, ty, stp⟩ r h
    rw [cmdSet_request_keys cr ty stp r h]
    rcases cr with _ | b
    all_goals rcases ty with _ | s
    all_goals rcases stp with _ | t
    all_goals try rcases b with _ | _
    all_goals try by_cases hts : timearg_convert t = ""
    all_goals first
    | simp [hts]
    | simp
  · intro p t
    simp [cmdDel_as_dict]

/-- C10 witness: the create-iff instantiated at the accepted
`create = false` call, plus the delete contrast at concrete inputs. -/
theorem c10_witness :
    (("create" ∈ keysOf ([] : List (String × WireVal)))
      ↔ (some false : Option Bool) = some true) ∧
    ("recursive", WireVal.vbool false)
      ∈ cmdDel_as_dict ⟨"P", some false, "T"⟩ := by
  have h := c10_set_falsy_options_omitted
  exact ⟨h.1 ⟨some false, none, none⟩ [] h.2.2.1, h.2.2.2 "P" "T"⟩

end VisiToolkit
